import Mathlib

/-!
Verification of the asynchronous video ingestion pipeline of the flock
backend (Flask + Celery + TUS resumable uploads to Cloudflare Stream).

The definitions below are a shallow embedding of:

* the chunked resumable-upload loop of `upload_video_with_tus`
  (`app/tasks/tasks.py`, lines 21-118);
* the background worker `upload_video_task`
  (`app/tasks/tasks.py`, lines 121-227);
* the HTTP handlers `create_video`, `get_task_status` and `cancel_upload`
  (`app/routes/video.py`);
* the `UploadSession` model (`app/models/upload_session.py`) and
  `transcode_video` (`app/utils/video.py`).

Pure control flow is translated directly; external collaborators (the TUS
server, Cloudflare REST calls, ffmpeg/ffprobe, the database and the redis
cache) are modelled by explicit outcome parameters and an explicit system
state, as described next to each definition.
-/

/-!
## Section 1: the resumable upload loop (`upload_video_with_tus`)

The Python loop (`app/tasks/tasks.py`, lines 67-109) is

  retry_count = 0
  last_offset = uploader.offset            -- starts at 0
  while uploader.offset < file_size:
      try:
          uploader.upload_chunk()          -- offset := server-reported offset
          last_offset = uploader.offset
          retry_count = 0
      except Exception:
          retry_count += 1
          if retry_count > max_retries: raise Exception(...)
          sleep(min(5 * retry_count, 30))
          uploader = tus_client.uploader(..., url=uploader.url)
          uploader.offset = last_offset    -- resume from last acknowledged offset

Each iteration performs exactly one network chunk call (`upload_chunk`).
We embed the environment as a trace `outcomes : List Bool` giving, for each
successive chunk call, whether it succeeds, together with an acknowledgement
function `ack : Nat → Nat` giving the offset the server reports for a
successful chunk sent from a given offset (the client trusts this value,
never local arithmetic).  A failed call leaves the resume point at
`lastOffset`, exactly as the Python reset does.
-/

/-- Outcome of the upload loop.  `complete off k`: the loop exited with
`uploader.offset = off` after `k` calls to `upload_chunk`; `failed k`: the
loop raised (`retry_count > max_retries`) after `k` calls; `outOfTrace`:
the supplied outcome trace ended before the loop terminated. -/
inductive TusResult where
  | complete (finalOffset : Nat) (calls : Nat)
  | failed (calls : Nat)
  | outOfTrace
  deriving DecidableEq

/-- Count one more performed chunk call in a loop outcome. -/
def TusResult.addCall : TusResult → TusResult
  | .complete f k => .complete f (k + 1)
  | .failed k => .failed (k + 1)
  | .outOfTrace => .outOfTrace

/-- The `while uploader.offset < file_size` loop of `upload_video_with_tus`.
`n` is the file size, `m` is `max_retries`, `ack` the server acknowledgement
for a successful chunk call. -/
def tusLoop (n m : Nat) (ack : Nat → Nat) :
    List Bool → Nat → Nat → Nat → TusResult
  | [], offset, _, _ =>
      if offset < n then TusResult.outOfTrace else TusResult.complete offset 0
  | ok :: rest, offset, lastOffset, retryCount =>
      if offset < n then
        if ok then
          (tusLoop n m ack rest (ack offset) (ack offset) 0).addCall
        else if m < retryCount + 1 then
          TusResult.failed 1
        else
          (tusLoop n m ack rest lastOffset lastOffset (retryCount + 1)).addCall
      else TusResult.complete offset 0

/-- Embedding of `upload_video_with_tus`: it starts the loop at offset 0 with
`last_offset = uploader.offset = 0` and `retry_count = 0`
(`app/tasks/tasks.py`, lines 67-69). -/
def upload_video_with_tus (n m : Nat) (ack : Nat → Nat)
    (outcomes : List Bool) : TusResult :=
  tusLoop n m ack outcomes 0 0 0

/-- A server that acknowledges exactly the bytes sent: the tus uploader
sends `min chunkSize (n - offset)` bytes from `offset`, so the authoritative
new offset is `min (offset + c) n`. -/
def honestAck (n c : Nat) : Nat → Nat :=
  fun offset => min (offset + c) n

/-!
## Section 2: Python values and the task status projection

`get_task_status` (`app/routes/video.py`, lines 114-186) inspects the raw
Celery state string and the task result/info payload (a Python value).  We
embed Python values shallowly.
-/

/-- A Python value as far as the pipeline inspects one: the task payloads
are dictionaries of scalars. -/
inductive PyVal where
  | none
  | bool (b : Bool)
  | int (n : Int)
  | str (s : String)
  | dict (entries : List (String × PyVal))

/-- Python truthiness for the values above (empty containers are falsy). -/
def PyVal.truthy : PyVal → Bool
  | .none => false
  | .bool b => b
  | .int n => !(n == 0)
  | .str s => !(s == "")
  | .dict es => !es.isEmpty

/-- Python `isinstance(v, dict)`. -/
def PyVal.isDict : PyVal → Bool
  | .dict _ => true
  | _ => false

/-- Python `d.get(key)`: the value under `key`, or `None` when the key is
missing or the value is not a dictionary (the routes only call `.get` after
an `isinstance(..., dict)` guard). -/
def PyVal.dictGet : PyVal → String → PyVal
  | .dict es, k =>
      match es.find? (fun e => e.1 == k) with
      | some e => e.2
      | Option.none => .none
  | _, _ => .none

/-- Python `v == "cancelled"` for a value fetched with `.get` (string
equality; any non-string compares unequal). -/
def PyVal.eqStr : PyVal → String → Bool
  | .str s, t => s == t
  | _, _ => false

/-- Python `task.info == \x7b"cancelled": True\x7d`.  Python dictionary
equality is key-set based; against a singleton literal it holds exactly for
the singleton dictionary with that key and value. -/
def isCancelledDictLiteral : PyVal → Bool
  | .dict [("cancelled", .bool true)] => true
  | _ => false

/-- The response dictionary built by `get_task_status`.  The route also
stringifies `task.info` into the `error`/`status` fields on some branches;
we keep the underlying value instead of its Python string rendering. -/
structure StatusResponse where
  state : String
  status : Option String
  result : Option PyVal
  error : Option PyVal

/-- Embedding of `get_task_status` (`app/routes/video.py`, lines 114-186): maps the raw
Celery state plus the task payload (`task.result` alias `task.info`) to the
client-facing response.  Each branch mirrors the route verbatim. -/
def get_task_status (state : String) (info : PyVal) : StatusResponse :=
  if state = "PENDING" then
    { state := state, status := some "Task is waiting to start...",
      result := Option.none, error := Option.none }
  else if state = "STARTED" then
    { state := state, status := some "Video is uploading...",
      result := Option.none, error := Option.none }
  else if state = "SUCCESS" then
    if info.isDict && (info.dictGet "cancelled").truthy then
      { state := "CANCELLED", status := some "Upload cancelled by user",
        result := Option.none, error := Option.none }
    else
      { state := state, status := some "Upload completed successfully!",
        result := some info, error := Option.none }
  else if state = "FAILURE" then
    if isCancelledDictLiteral info ||
        (info.isDict && (info.dictGet "error").eqStr "cancelled") then
      { state := "CANCELLED", status := some "Upload cancelled by user",
        result := Option.none, error := Option.none }
    else
      { state := "FAILURE", status := some "Upload failed",
        result := Option.none, error := some info }
  else if state = "REVOKED" then
    { state := "CANCELLED", status := some "Upload cancelled by user",
      result := Option.none, error := Option.none }
  else
    { state := state, status := Option.none,
      result := Option.none, error := some info }

/-!
## Section 3: system state, the background worker, and the HTTP handlers

The mutable world the pipeline touches: the `users` and `videos` tables,
the `upload_sessions` table, the local temp-file directory, and the redis
cache (we count invalidation sweeps).  File paths are kept as a list that
represents the set of existing files.
-/

/-- One row of the catalog `videos` table, restricted to the fields the
worker writes (`app/tasks/tasks.py`, lines 177-192). -/
structure VideoRecord where
  title : String
  description : Option String
  duration : Option Nat
  video : String
  thumbnail : String
  keywords : List String
  locations : List String
  created_by : Nat
  is_draft : Bool
  is_scheduled : Bool
  scheduled_at : Option Nat
  age_restricted : Bool
  brand_tags : List String
  paid_promotion : Bool
  deriving DecidableEq

/-- One row of the `upload_sessions` table
(`app/models/upload_session.py`). -/
structure SessionRecord where
  id : String
  user_id : Nat
  tus_url : Option String
  temp_path : Option String
  cancelled : Bool
  deriving DecidableEq

/-- The shared mutable state. -/
structure SysState where
  users : List Nat
  videos : List VideoRecord
  sessions : List SessionRecord
  files : List String
  cacheFlushes : Nat
  deriving DecidableEq

/-- Empty initial state.  The migrations under `migrations/versions/` seed
an admin user and an invitation table but never an `upload_sessions` row;
user rows are modelled by the explicit `addUser` operation below. -/
def initState : SysState :=
  { users := [], videos := [], sessions := [], files := [], cacheFlushes := 0 }

/-- Observable effects of the worker and the submit handler, in order. -/
inductive Event where
  | transcode (input output : String)
  | tusUpload (path : String)
  | detailsFetch (uid : String)
  | thumbUpload (path : String)
  | dbCommit
  | dbRollback
  | cacheInvalidate
  | removeFile (path : String)
  | stageTempFile (path : String)
  | enqueueTask (taskId : String)
  deriving DecidableEq

/-- Is this event an invocation of the external transcoder? -/
def Event.isTranscode : Event → Bool
  | .transcode _ _ => true
  | _ => false

/-- Outcomes of the external calls made by one run of `upload_video_task`,
abstracting each collaborator to the result the Python code branches on.
`tusUid = none` means `upload_video_with_tus` raised (retry budget
exhausted or another transport error); `playbackHls`/`streamThumb` collapse
the JSON accesses `details_data.get("playback", ...).get("hls")` and
`details_data.get("thumbnail")` to the string when present and truthy;
`thumbVariant` is `result.variants[0]` of the thumbnail upload response (a
missing field raises a KeyError inside the inner try, which is swallowed);
`probedDuration` is `get_video_duration`, which returns `None` when ffprobe
fails (`app/utils/video.py`, lines 9-23). -/
structure WorkerEnv where
  tusUid : Option String
  detailsFetchRaises : Bool
  detailsStatusOk : Bool
  playbackHls : Option String
  streamThumb : Option String
  thumbUploadRaises : Bool
  thumbUploadStatusOk : Bool
  thumbVariant : Option String
  probedDuration : Option Nat
  commitRaises : Bool
  cacheRaises : Bool

/-- The `video_data` dictionary assembled by `create_video`
(`app/routes/video.py`, lines 79-90) and consumed by the worker. -/
structure VideoData where
  title : String
  description : Option String
  keywords : List String
  locations : List String
  is_draft : Bool
  is_scheduled : Bool
  scheduled_at : Option Nat
  age_restricted : Bool
  brand_tags : List String
  paid_promotion : Bool
  deriving DecidableEq

/-- Python `os.remove(f)` guarded by `os.path.exists(f)`
(`app/tasks/tasks.py`, lines 201-203 and 219-221).  The file list stands
for the set of existing paths, so removal filters out every occurrence. -/
def removeIfExists (p : String) (st : SysState) : SysState × List Event :=
  if p ∈ st.files then
    ({ st with files := st.files.filter (fun f => !(f == p)) },
      [Event.removeFile p])
  else (st, [])

/-- The cleanup loop `for f in [video_path, thumb_path]: if f and os.path.exists(f):
os.remove(f)` — the cleanup block run on both exit paths of the worker. -/
def cleanupFiles (videoPath : String) (thumbPath : Option String)
    (st : SysState) : SysState × List Event :=
  let r1 := removeIfExists videoPath st
  match thumbPath with
  | Option.none => r1
  | some tp =>
      let r2 := removeIfExists tp r1.1
      (r2.1, r1.2 ++ r2.2)

/-- One run of the worker: the returned payload (the Python dictionary),
the state after the run, and the emitted events. -/
structure TaskRun where
  result : PyVal
  state : SysState
  events : List Event

/-- The dictionary returned on the `except` path of `upload_video_task`
(`app/tasks/tasks.py`, lines 223-227). -/
def failurePayload (err : String) : PyVal :=
  .dict [("success", .bool false), ("error", .str err),
    ("message", .str "Video upload failed. Check Cloudflare logs or retry.")]

/-- The dictionary returned on the success path of `upload_video_task`
(`app/tasks/tasks.py`, lines 207-215). -/
def successPayload (uid : String) (videoId : Nat) (playbackUrl : String)
    (thumbnailUrl : String) (duration : Option Nat) : PyVal :=
  .dict [("success", .bool true),
    ("message", .str "Video uploaded and committed successfully"),
    ("video_uid", .str uid), ("video_id", .int videoId),
    ("playback_url", .str playbackUrl),
    ("thumbnail_url", .str thumbnailUrl),
    ("duration", match duration with
      | some d => .int d
      | Option.none => .none)]

/-- Common tail of both exit paths: run the temp-file cleanup and return. -/
def finishRun (payload : PyVal) (evts : List Event) (videoPath : String)
    (thumbPath : Option String) (st : SysState) : TaskRun :=
  let c := cleanupFiles videoPath thumbPath st
  { result := payload, state := c.1, events := evts ++ c.2 }

/-- The `except` path: `db.session.rollback()`, temp-file cleanup, and the
failure dictionary is RETURNED (not raised).  `st` is the state at the
point the exception surfaced: database writes are only applied at the
commit, so a pre-commit exception sees the caller state unchanged. -/
def failRun (err : String) (evts : List Event) (videoPath : String)
    (thumbPath : Option String) (st : SysState) : TaskRun :=
  finishRun (failurePayload err) (evts ++ [Event.dbRollback]) videoPath
    thumbPath st

/-- The custom-thumbnail section (`app/tasks/tasks.py`, lines 150-166):
best effort, every exception is swallowed; on a 200 response the thumbnail
URL becomes `result.variants[0]`. -/
def thumbStep (env : WorkerEnv) (current : Option String)
    (thumbPath : Option String) : Option String × List Event :=
  match thumbPath with
  | Option.none => (current, [])
  | some tp =>
      if env.thumbUploadRaises then (current, [Event.thumbUpload tp])
      else if env.thumbUploadStatusOk then
        match env.thumbVariant with
        | some v => (some v, [Event.thumbUpload tp])
        | Option.none => (current, [Event.thumbUpload tp])
      else (current, [Event.thumbUpload tp])

/-- Embedding of `upload_video_task` (`app/tasks/tasks.py`, lines 121-227).  The whole
body is one `try`/`except Exception`; every failure therefore RETURNS the
failure dictionary, so the raw Celery state of a finished run is SUCCESS on
both paths.  Steps, in source order: user lookup; TUS upload; Cloudflare
details fetch (non-200 degrades to an empty details dict, a raised request
error aborts); playback/thumbnail URL selection with
`https://videodelivery.net` fallbacks; optional custom thumbnail upload
(best effort); `get_video_duration`; `Video(...)` insert + commit;
`delete_video_cache()`; temp-file cleanup; success dictionary.  The worker
never reads the `upload_sessions` table.  The committed row id is modelled
as the next index in the videos table. -/
def upload_video_task (env : WorkerEnv) (userId : Nat) (vd : VideoData)
    (videoPath : String) (thumbPath : Option String) (st : SysState) :
    TaskRun :=
  if userId ∈ st.users then
    match env.tusUid with
    | Option.none =>
        failRun "Upload failed" [Event.tusUpload videoPath] videoPath
          thumbPath st
    | some uid =>
        if env.detailsFetchRaises then
          failRun "details fetch error" [Event.tusUpload videoPath]
            videoPath thumbPath st
        else
          let playbackHls :=
            if env.detailsStatusOk then env.playbackHls else Option.none
          let streamThumb :=
            if env.detailsStatusOk then env.streamThumb else Option.none
          let playback_url :=
            playbackHls.getD ("https://videodelivery.net/" ++ uid ++ "/watch")
          let ts := thumbStep env streamThumb thumbPath
          let thumbnail_url :=
            ts.1.getD ("https://videodelivery.net/" ++ uid ++
              "/thumbnails/thumbnail.jpg")
          let evts := [Event.tusUpload videoPath, Event.detailsFetch uid]
            ++ ts.2
          let duration := env.probedDuration
          if env.commitRaises then
            failRun "commit error" evts videoPath thumbPath st
          else
            let videoId := st.videos.length + 1
            let record : VideoRecord :=
              { title := vd.title, description := vd.description,
                duration := duration, video := playback_url,
                thumbnail := thumbnail_url, keywords := vd.keywords,
                locations := vd.locations, created_by := userId,
                is_draft := vd.is_draft, is_scheduled := vd.is_scheduled,
                scheduled_at := vd.scheduled_at,
                age_restricted := vd.age_restricted,
                brand_tags := vd.brand_tags,
                paid_promotion := vd.paid_promotion }
            let st1 := { st with videos := st.videos ++ [record] }
            if env.cacheRaises then
              failRun "cache error" (evts ++ [Event.dbCommit]) videoPath
                thumbPath st1
            else
              finishRun
                (successPayload uid videoId playback_url thumbnail_url
                  duration)
                (evts ++ [Event.dbCommit, Event.cacheInvalidate]) videoPath
                thumbPath
                { st1 with cacheFlushes := st1.cacheFlushes + 1 }
  else
    failRun "User not found" [] videoPath thumbPath st

/-- Embedding of `transcode_video` (`app/utils/video.py`, lines 25-35): runs ffmpeg as a
blocking subprocess; on a non-zero exit it does not raise — it RETURNS a
Flask 400 error response, which no caller in the repository receives
(the function is imported by `app/routes/video.py` but never called). -/
def transcode_video (ffmpegExitZero : Bool) (input output : String) :
    Option Nat × List Event :=
  if ffmpegExitZero then (Option.none, [Event.transcode input output])
  else (some 400, [Event.transcode input output])

/-- The multipart submit request as `create_video` reads it
(`app/routes/video.py`, lines 37-58).  `title = none` or `some ""` is falsy
in `if not video_file or not title`.  `scheduledAt`: `none` = field absent,
`some none` = present but `datetime.fromisoformat` raises ValueError,
`some (some t)` = parses to time `t`.  `fileSize`, `fileDuration` and
`fileExt` describe the uploaded file; the handler never reads them. -/
structure CreateRequest where
  hasVideo : Bool
  title : Option String
  scheduledAt : Option (Option Nat)
  description : Option String
  fileSize : Nat
  fileDuration : Option Nat
  fileExt : String
  hasThumbnail : Bool
  deriving DecidableEq

/-- Responses of `create_video` on the modelled paths.  (Malformed JSON in
the tag fields and other unexpected exceptions surface as a 500 through the
outer `except`; those inputs are outside this request model.) -/
inductive CreateResponse where
  | badRequest (msg : String)
  | accepted (taskId : String)
  deriving DecidableEq

/-- The falsiness test in `if not video_file or not title` (`app/routes/video.py`, line 42). -/
def titleFalsy : Option String → Bool
  | Option.none => true
  | some t => t == ""

/-- Embedding of `create_video` (`app/routes/video.py`, lines 28-110): checks only that
a video file and a non-empty title are present and that `scheduled_at`, if
given, parses and lies in the future; then streams the upload to a fresh
temp path, stages the optional thumbnail, and enqueues
`upload_video_task`.  No duration, size or extension validation is
performed, and no `UploadSession` row is created.  `now` is the server
clock, `newTempVideo`/`newTempThumb` the fresh uuid temp paths, `newTaskId`
the Celery task id. -/
def create_video (now : Nat) (req : CreateRequest) (newTempVideo : String)
    (newTempThumb : String) (newTaskId : String) (st : SysState) :
    CreateResponse × SysState × List Event :=
  if !req.hasVideo || titleFalsy req.title then
    (.badRequest "Missing title or video", st, [])
  else
    match req.scheduledAt with
    | some Option.none =>
        (.badRequest "Invalid scheduled_at format. Use ISO format (e.g., 2025-01-15T14:30:00Z)",
          st, [])
    | some (some t) =>
        if t ≤ now then
          (.badRequest "Scheduled time must be in the future", st, [])
        else
          let st1 := { st with files := st.files ++ [newTempVideo] }
          let st2 :=
            if req.hasThumbnail then
              { st1 with files := st1.files ++ [newTempThumb] }
            else st1
          (.accepted newTaskId, st2,
            [Event.stageTempFile newTempVideo, Event.enqueueTask newTaskId])
    | Option.none =>
        let st1 := { st with files := st.files ++ [newTempVideo] }
        let st2 :=
          if req.hasThumbnail then
            { st1 with files := st1.files ++ [newTempThumb] }
          else st1
        (.accepted newTaskId, st2,
          [Event.stageTempFile newTempVideo, Event.enqueueTask newTaskId])

/-- The authenticated caller of `cancel_upload`: `@creator_required` admits
only creator-role users, before the handler body runs. -/
structure Requester where
  userId : Nat
  isCreator : Bool
  deriving DecidableEq

/-- Responses of `cancel_upload`. -/
inductive CancelResponse where
  | forbiddenRole
  | notFound
  | ok
  deriving DecidableEq

/-- Embedding of `cancel_upload` (`app/routes/video.py`, lines 189-233): look the
session up by task id (404 when absent), set `cancelled = True` and commit,
then best-effort revoke the Celery task and best-effort DELETE the remote
TUS session — both wrapped in `try`/`except` that only logs, so neither
`revokeFails` nor `tusDeleteFails` affects the response.  The handler never
compares `session.user_id` with the requester. -/
def cancel_upload (taskId : String) (req : Requester)
    (revokeFails tusDeleteFails : Bool) (st : SysState) :
    CancelResponse × SysState :=
  if !req.isCreator then (.forbiddenRole, st)
  else
    match st.sessions.find? (fun s => s.id == taskId) with
    | Option.none => (.notFound, st)
    | some _ =>
        (.ok,
          { st with sessions := st.sessions.map (fun s =>
              if s.id == taskId then { s with cancelled := true } else s) })

/-!
## Section 4: reachable states of the pipeline

Every operation of the ingestion slice, as a state transformer; the grep
over the repository shows `UploadSession` is referenced only by the model
definition, the model package import, and `cancel_upload` — no route, task,
service or migration ever inserts a row or assigns `tus_url`.
-/

/-- One invocation of a pipeline operation (plus user-account creation,
the only other writer of the tables above). -/
inductive Op where
  | addUser (uid : Nat)
  | createVideo (now : Nat) (req : CreateRequest)
      (tempV tempT taskId : String)
  | runTask (env : WorkerEnv) (userId : Nat) (vd : VideoData)
      (videoPath : String) (thumbPath : Option String)
  | cancelUpload (taskId : String) (req : Requester)
      (revokeFails tusDeleteFails : Bool)
  | pollStatus (state : String) (info : PyVal)

/-- Effect of one operation on the shared state (responses discarded). -/
def Op.step : Op → SysState → SysState
  | .addUser uid, st => { st with users := uid :: st.users }
  | .createVideo now req tv tt tid, st =>
      (create_video now req tv tt tid st).2.1
  | .runTask env uid vd vp tp, st =>
      (upload_video_task env uid vd vp tp st).state
  | .cancelUpload tid req rf tf, st => (cancel_upload tid req rf tf st).2
  | .pollStatus _ _, st => st

/-- The state after a sequence of operations from the initial state. -/
def runOps (ops : List Op) : SysState :=
  ops.foldl (fun st op => op.step st) initState

/-- The cancellation sentinel tested by the FAILURE branch of
`get_task_status` (`app/routes/video.py`, lines 154-155):
`task.info == \x7b"cancelled": True\x7d or (isinstance(task.info, dict) and
task.info.get("error") == "cancelled")`. -/
def cancelSentinel (info : PyVal) : Bool :=
  isCancelledDictLiteral info ||
    (info.isDict && (info.dictGet "error").eqStr "cancelled")

/-!
## Section 5: concrete fixtures used by counterexamples and witnesses
-/

/-- A plain submission payload. -/
def vdX : VideoData :=
  { title := "My video", description := Option.none, keywords := [],
    locations := [], is_draft := false, is_scheduled := false,
    scheduled_at := Option.none, age_restricted := false, brand_tags := [],
    paid_promotion := false }

/-- An environment in which every external call of the worker succeeds. -/
def happyEnv : WorkerEnv :=
  { tusUid := some "uid1", detailsFetchRaises := false,
    detailsStatusOk := true, playbackHls := some "https://hls.example/v",
    streamThumb := Option.none, thumbUploadRaises := false,
    thumbUploadStatusOk := false, thumbVariant := Option.none,
    probedDuration := some 120, commitRaises := false, cacheRaises := false }

/-- An upload session whose `cancelled` flag is already set. -/
def sessCancelled : SessionRecord :=
  { id := "t1", user_id := 1, tus_url := Option.none,
    temp_path := some "v.mp4", cancelled := true }

/-- A state in which user 1 exists, the staged file is present, and the
session for task t1 is marked cancelled before the worker starts. -/
def stCancelled : SysState :=
  { users := [1], videos := [], sessions := [sessCancelled],
    files := ["v.mp4"], cacheFlushes := 0 }

/-- A session owned by user 1 and not yet cancelled. -/
def sessOwned : SessionRecord :=
  { id := "t1", user_id := 1, tus_url := Option.none,
    temp_path := Option.none, cancelled := false }

/-- A state with two users and an active session owned by user 1. -/
def stOwned : SysState :=
  { users := [1, 2], videos := [], sessions := [sessOwned], files := [],
    cacheFlushes := 0 }

/-- A submission whose probed duration (700 s) exceeds the 600 s ceiling
and whose size (300 MiB) exceeds the 250 MiB ceiling. -/
def reqOversize : CreateRequest :=
  { hasVideo := true, title := some "Big video",
    scheduledAt := Option.none, description := Option.none,
    fileSize := 300 * 1024 * 1024, fileDuration := some 700,
    fileExt := "mp4", hasThumbnail := false }

/-- A concrete run of the pipeline: sign-up, submission, worker run. -/
def opsX : List Op :=
  [Op.addUser 1,
   Op.createVideo 0 reqOversize "tmpvid" "tmpthumb" "t1",
   Op.runTask happyEnv 1 vdX "tmpvid" Option.none]

/-!  ## Helper lemmas for the loop  -/

theorem tusLoop_of_done (n m : Nat) (ack : Nat → Nat) (outcomes : List Bool)
    (offset lastOffset retryCount : Nat) (h : ¬ offset < n) :
    tusLoop n m ack outcomes offset lastOffset retryCount =
      TusResult.complete offset 0 := by
  cases outcomes with
  | nil => simp [tusLoop, h]
  | cons a l => simp [tusLoop, h]

theorem tusLoop_all_success (n m c : Nat) (hc : 1 ≤ c) :
    ∀ (k offset lo : Nat) (extra : List Bool), offset < n →
      k = (n - offset + c - 1) / c →
      tusLoop n m (honestAck n c) (List.replicate k true ++ extra) offset lo 0 =
        TusResult.complete n k := by
  intro k
  induction k with
  | zero =>
      intro offset lo extra hlt hk
      exfalso
      have h1 : 1 ≤ (n - offset + c - 1) / c := by
        rw [Nat.one_le_div_iff hc]; omega
      omega
  | succ k ih =>
      intro offset lo extra hlt hk
      rw [List.replicate_succ, List.cons_append]
      simp only [tusLoop, if_pos hlt, if_true]
      by_cases hend : n ≤ offset + c
      · have hk0 : k = 0 := by
          have h1 : n - offset + c - 1 < 2 * c := by omega
          have h2 : 1 * c ≤ n - offset + c - 1 := by omega
          have := Nat.div_eq_of_lt_le h2 (by omega)
          omega
        subst hk0
        have hmin : honestAck n c offset = n := by
          simp [honestAck]; omega
        rw [hmin, List.replicate_zero, List.nil_append,
          tusLoop_of_done n m _ extra n n 0 (by omega)]
        rfl
      · have hmin : honestAck n c offset = offset + c := by
          simp [honestAck]; omega
        have hlt' : offset + c < n := by omega
        have hk' : k = (n - (offset + c) + c - 1) / c := by
          have h1 : n - offset + c - 1 = (n - (offset + c) + c - 1) + c := by
            omega
          rw [h1, Nat.add_div_right _ (by omega : 0 < c)] at hk
          omega
        rw [hmin, ih (offset + c) (offset + c) extra hlt' hk']
        rfl

theorem tusLoop_fail_streak (n m : Nat) (ack : Nat → Nat) (rest : List Bool) :
    ∀ (j r lo : Nat), lo < n → r + j = m + 1 → 1 ≤ j →
      tusLoop n m ack (List.replicate j false ++ rest) lo lo r =
        TusResult.failed j := by
  intro j
  induction j with
  | zero => intro r lo _ _ hj; omega
  | succ j ih =>
      intro r lo hlt hsum _
      rw [List.replicate_succ, List.cons_append]
      simp only [tusLoop, if_pos hlt]
      by_cases hlast : m < r + 1
      · have hj0 : j = 0 := by omega
        subst hj0
        simp [hlast]
      · have hj1 : 1 ≤ j := by omega
        simp only [Bool.false_eq_true, if_false, if_neg hlast]
        rw [ih (r + 1) lo hlt (by omega) hj1]
        rfl

/-!  ## Claims C3 and C4  -/

/-- C3 counterexample: with the default retry budget `max_retries = 10`,
ten consecutive chunk-call failures do NOT make `upload` raise: the loop
performs an eleventh network chunk call (which here succeeds) and the
upload completes after 11 calls, instead of raising a terminal failure
after the tenth consecutive failure with no further network calls. -/
theorem claim_C3_counterexample :
    upload_video_with_tus 1 10 (honestAck 1 1)
      (List.replicate 10 false ++ [true]) = TusResult.complete 1 11 := by
  decide

/-- C3 (amended): the raise happens when `retry_count` EXCEEDS
`max_retries`, i.e. after `max_retries + 1` consecutive chunk-call failures
(11 with the default budget of 10); at that point `upload` raises a
terminal failure and performs no further network calls (the result ignores
any remaining trace `rest`, and exactly `m + 1` calls were made). -/
theorem claim_C3 (n m : Nat) (ack : Nat → Nat) (rest : List Bool)
    (hn : 1 ≤ n) :
    upload_video_with_tus n m ack (List.replicate (m + 1) false ++ rest) =
      TusResult.failed (m + 1) := by
  have h := tusLoop_fail_streak n m ack rest (m + 1) 0 0 (by omega)
    (by omega) (by omega)
  simpa [upload_video_with_tus] using h

theorem claim_C3_witness :
    1 ≤ 2 ∧
    upload_video_with_tus 2 1 (honestAck 2 1)
      (List.replicate (1 + 1) false ++ [true, true]) =
        TusResult.failed (1 + 1) :=
  ⟨by decide, claim_C3 2 1 (honestAck 2 1) [true, true] (by decide)⟩

/-- C4: for every file of size `n ≥ 1` and chunk size `c ≥ 1`, when every
chunk call succeeds and the server acknowledges exactly the bytes sent
(`honestAck`), the upload loop performs exactly `⌈n / c⌉ = (n + c - 1) / c`
chunk calls and terminates complete with `offset = n`; in particular one
call when `n < c` and `n / c` calls when `c ∣ n`.  The appended `extra`
trace shows no further calls are made after completion. -/
theorem claim_C4 (n c m : Nat) (extra : List Bool) (hn : 1 ≤ n)
    (hc : 1 ≤ c) :
    upload_video_with_tus n m (honestAck n c)
        (List.replicate ((n + c - 1) / c) true ++ extra) =
      TusResult.complete n ((n + c - 1) / c) ∧
    (n < c → (n + c - 1) / c = 1) ∧
    (c ∣ n → (n + c - 1) / c = n / c) := by
  refine ⟨?_, ?_, ?_⟩
  · have h := tusLoop_all_success n m c hc ((n + c - 1) / c) 0 0 extra
      (by omega) (by simp)
    simpa [upload_video_with_tus] using h
  · intro hnc
    have h2 : 1 * c ≤ n + c - 1 := by omega
    exact Nat.div_eq_of_lt_le h2 (by omega)
  · rintro ⟨q, rfl⟩
    have h1 : c * q + c - 1 = c * q + (c - 1) := by omega
    rw [h1, Nat.mul_add_div (by omega : 0 < c),
      Nat.div_eq_of_lt (by omega : c - 1 < c),
      Nat.mul_div_cancel_left q (by omega : 0 < c)]
    omega

theorem claim_C4_witness :
    1 ≤ 5 ∧ 1 ≤ 2 ∧
    (upload_video_with_tus 5 10 (honestAck 5 2)
        (List.replicate ((5 + 2 - 1) / 2) true ++ []) =
      TusResult.complete 5 ((5 + 2 - 1) / 2) ∧
    (5 < 2 → (5 + 2 - 1) / 2 = 1) ∧
    (2 ∣ 5 → (5 + 2 - 1) / 2 = 5 / 2)) :=
  ⟨by decide, by decide, claim_C4 5 2 10 [] (by decide) (by decide)⟩

/-!  ## Helper lemmas for cleanup and the worker  -/

theorem removeIfExists_sessions (p : String) (st : SysState) :
    (removeIfExists p st).1.sessions = st.sessions := by
  unfold removeIfExists
  split <;> rfl

theorem removeIfExists_videos (p : String) (st : SysState) :
    (removeIfExists p st).1.videos = st.videos := by
  unfold removeIfExists
  split <;> rfl

theorem removeIfExists_not_mem (p : String) (st : SysState) :
    p ∉ (removeIfExists p st).1.files := by
  unfold removeIfExists
  split
  · simp [List.mem_filter]
  · assumption

theorem removeIfExists_not_mem_of (x p : String) (st : SysState)
    (h : x ∉ st.files) : x ∉ (removeIfExists p st).1.files := by
  unfold removeIfExists
  split
  · simp only [List.mem_filter]
    intro hx
    exact absurd hx.1 h
  · exact h

theorem removeIfExists_events (p : String) (st : SysState) :
    ((removeIfExists p st).2.all (fun e => !e.isTranscode)) = true := by
  unfold removeIfExists
  split <;> simp [Event.isTranscode]

theorem cleanupFiles_sessions (vp : String) (tp : Option String)
    (st : SysState) : (cleanupFiles vp tp st).1.sessions = st.sessions := by
  unfold cleanupFiles
  cases tp with
  | none => exact removeIfExists_sessions vp st
  | some t =>
      simp only
      rw [removeIfExists_sessions, removeIfExists_sessions]

theorem cleanupFiles_videos (vp : String) (tp : Option String)
    (st : SysState) : (cleanupFiles vp tp st).1.videos = st.videos := by
  unfold cleanupFiles
  cases tp with
  | none => exact removeIfExists_videos vp st
  | some t =>
      simp only
      rw [removeIfExists_videos, removeIfExists_videos]

theorem cleanupFiles_not_mem_video (vp : String) (tp : Option String)
    (st : SysState) : vp ∉ (cleanupFiles vp tp st).1.files := by
  unfold cleanupFiles
  cases tp with
  | none => exact removeIfExists_not_mem vp st
  | some t =>
      simp only
      exact removeIfExists_not_mem_of vp t _ (removeIfExists_not_mem vp st)

theorem cleanupFiles_not_mem_thumb (vp t : String) (st : SysState) :
    t ∉ (cleanupFiles vp (some t) st).1.files := by
  unfold cleanupFiles
  simp only
  exact removeIfExists_not_mem t _

theorem cleanupFiles_events (vp : String) (tp : Option String)
    (st : SysState) :
    ((cleanupFiles vp tp st).2.all (fun e => !e.isTranscode)) = true := by
  unfold cleanupFiles
  cases tp with
  | none => exact removeIfExists_events vp st
  | some t =>
      simp only [List.all_append]
      rw [removeIfExists_events, removeIfExists_events]
      rfl

theorem finishRun_result (pl : PyVal) (evts : List Event) (vp : String)
    (tp : Option String) (st : SysState) :
    (finishRun pl evts vp tp st).result = pl := rfl

theorem finishRun_sessions (pl : PyVal) (evts : List Event) (vp : String)
    (tp : Option String) (st : SysState) :
    (finishRun pl evts vp tp st).state.sessions = st.sessions :=
  cleanupFiles_sessions vp tp st

theorem finishRun_videos (pl : PyVal) (evts : List Event) (vp : String)
    (tp : Option String) (st : SysState) :
    (finishRun pl evts vp tp st).state.videos = st.videos :=
  cleanupFiles_videos vp tp st

theorem finishRun_not_mem_video (pl : PyVal) (evts : List Event)
    (vp : String) (tp : Option String) (st : SysState) :
    vp ∉ (finishRun pl evts vp tp st).state.files :=
  cleanupFiles_not_mem_video vp tp st

theorem finishRun_not_mem_thumb (pl : PyVal) (evts : List Event)
    (vp t : String) (st : SysState) :
    t ∉ (finishRun pl evts vp (some t) st).state.files :=
  cleanupFiles_not_mem_thumb vp t st

theorem finishRun_events (pl : PyVal) (evts : List Event) (vp : String)
    (tp : Option String) (st : SysState)
    (h : (evts.all (fun e => !e.isTranscode)) = true) :
    ((finishRun pl evts vp tp st).events.all (fun e => !e.isTranscode))
      = true := by
  unfold finishRun
  simp only [List.all_append]
  rw [h, cleanupFiles_events]
  rfl

theorem thumbStep_events (env : WorkerEnv) (cur : Option String)
    (tp : Option String) :
    ((thumbStep env cur tp).2.all (fun e => !e.isTranscode)) = true := by
  cases tp with
  | none => rfl
  | some t =>
      by_cases h1 : env.thumbUploadRaises = true
      · simp [thumbStep, h1, Event.isTranscode]
      · by_cases h2 : env.thumbUploadStatusOk = true
        · cases h3 : env.thumbVariant <;>
            simp [thumbStep, h1, h2, h3, Event.isTranscode]
        · simp [thumbStep, h1, h2, Event.isTranscode]

@[simp] theorem failurePayload_get_success (e : String) :
    (failurePayload e).dictGet "success" = PyVal.bool false := rfl

@[simp] theorem failurePayload_get_cancelled (e : String) :
    (failurePayload e).dictGet "cancelled" = PyVal.none := rfl

@[simp] theorem successPayload_get_success (uid : String) (vid : Nat)
    (pb tb : String) (dur : Option Nat) :
    (successPayload uid vid pb tb dur).dictGet "success" =
      PyVal.bool true := rfl

@[simp] theorem successPayload_get_cancelled (uid : String) (vid : Nat)
    (pb tb : String) (dur : Option Nat) :
    (successPayload uid vid pb tb dur).dictGet "cancelled" =
      PyVal.none := rfl

@[simp] theorem gts_success_failurePayload (e : String) :
    get_task_status "SUCCESS" (failurePayload e) =
      { state := "SUCCESS", status := some "Upload completed successfully!",
        result := some (failurePayload e), error := Option.none } := rfl

@[simp] theorem gts_success_successPayload (uid : String) (vid : Nat)
    (pb tb : String) (dur : Option Nat) :
    get_task_status "SUCCESS" (successPayload uid vid pb tb dur) =
      { state := "SUCCESS", status := some "Upload completed successfully!",
        result := some (successPayload uid vid pb tb dur),
        error := Option.none } := rfl

theorem upload_video_task_sessions (env : WorkerEnv) (u : Nat)
    (vd : VideoData) (vp : String) (tp : Option String) (st : SysState) :
    (upload_video_task env u vd vp tp st).state.sessions = st.sessions := by
  simp only [upload_video_task, failRun]
  repeat' split
  all_goals simp [finishRun_sessions]

theorem upload_video_task_fails (env : WorkerEnv) (u : Nat) (vd : VideoData)
    (vp : String) (tp : Option String) (st : SysState)
    (h : u ∉ st.users ∨ env.tusUid = Option.none ∨
      env.detailsFetchRaises = true ∨ env.commitRaises = true) :
    ∃ e, (upload_video_task env u vd vp tp st).result = failurePayload e := by
  by_cases hu : u ∈ st.users
  · cases htus : env.tusUid with
    | none =>
        exact ⟨"Upload failed",
          by simp [upload_video_task, hu, htus, failRun, finishRun_result]⟩
    | some uid =>
        by_cases hdf : env.detailsFetchRaises = true
        · exact ⟨"details fetch error",
            by simp [upload_video_task, hu, htus, hdf, failRun,
              finishRun_result]⟩
        · have hcm : env.commitRaises = true := by
            rcases h with h | h | h | h
            · exact absurd hu h
            · rw [htus] at h; exact Option.noConfusion h
            · exact absurd h hdf
            · exact h
          exact ⟨"commit error",
            by simp [upload_video_task, hu, htus, hdf, hcm, failRun,
              finishRun_result]⟩
  · exact ⟨"User not found",
      by simp [upload_video_task, hu, failRun, finishRun_result]⟩

/-!  ## Claims C5, C8, C9  -/

/-- C5 counterexample: a fully successful concrete run of the worker.  Its
event trace contains the resumable upload, the metadata fetch, the catalog
commit, the cache invalidation and the temp-file cleanup — but no
invocation of the transcoder: the worker uploads the staged input file
without ever running the transcode step, contradicting the claim that every
job transcodes before uploading. -/
theorem claim_C5_counterexample :
    (upload_video_task happyEnv 1 vdX "v.mp4" Option.none
        stCancelled).events =
      [Event.tusUpload "v.mp4", Event.detailsFetch "uid1", Event.dbCommit,
        Event.cacheInvalidate, Event.removeFile "v.mp4"] ∧
    ((upload_video_task happyEnv 1 vdX "v.mp4" Option.none
        stCancelled).events.all (fun e => !e.isTranscode)) = true := by
  exact ⟨rfl, rfl⟩

/-- C5 (amended): the worker performs no transcode step at all — on every
run, under every environment, its event trace contains no invocation of the
external transcoder; the staged input file is uploaded as-is.
(`transcode_video` exists in `app/utils/video.py` but is never called by
the pipeline, and on a non-zero ffmpeg exit it returns an error response
instead of raising.) -/
theorem claim_C5 (env : WorkerEnv) (u : Nat) (vd : VideoData) (vp : String)
    (tp : Option String) (st : SysState) :
    ((upload_video_task env u vd vp tp st).events.all
      (fun e => !e.isTranscode)) = true := by
  simp only [upload_video_task, failRun]
  repeat' split
  all_goals apply finishRun_events
  all_goals
    simp only [List.all_append, thumbStep_events, Bool.and_true,
      Bool.true_and]
  all_goals rfl

/-- C8: on every exit path of the worker — success, any caught failure, or
the degenerate no-user path — the staged source file and the thumbnail temp
file (when one was passed) are absent from local storage afterwards: both
return paths of `upload_video_task` run the guarded `os.remove` cleanup.
(Forced termination of the worker process by the revoke signal is outside
the exit paths of the function and outside this model.) -/
theorem claim_C8 (env : WorkerEnv) (u : Nat) (vd : VideoData) (vp : String)
    (tp : Option String) (st : SysState) :
    vp ∉ (upload_video_task env u vd vp tp st).state.files ∧
    ∀ t, tp = some t →
      t ∉ (upload_video_task env u vd vp tp st).state.files := by
  constructor
  · simp only [upload_video_task, failRun]
    repeat' split
    all_goals apply finishRun_not_mem_video
  · intro t ht
    subst ht
    simp only [upload_video_task, failRun]
    repeat' split
    all_goals apply finishRun_not_mem_thumb

theorem claim_C8_witness :
    "v.mp4" ∉ (upload_video_task happyEnv 1 vdX "v.mp4" (some "th.jpg")
      stCancelled).state.files ∧
    "th.jpg" ∉ (upload_video_task happyEnv 1 vdX "v.mp4" (some "th.jpg")
      stCancelled).state.files :=
  ⟨(claim_C8 happyEnv 1 vdX "v.mp4" (some "th.jpg") stCancelled).1,
   (claim_C8 happyEnv 1 vdX "v.mp4" (some "th.jpg") stCancelled).2
     "th.jpg" rfl⟩

/-- C9: when any step of the started task fails — user lookup, the
resumable upload (retries exhausted), a raised metadata fetch, or the
catalog commit — the worker catches the exception and RETURNS the failure
dictionary instead of raising.  The returned dictionary has
`success = False` and no `cancelled` key, so the raw Celery state of the
finished job is SUCCESS and `get_task_status` reports state SUCCESS with message
`Upload completed successfully!` for the failed job. -/
theorem claim_C9 (env : WorkerEnv) (u : Nat) (vd : VideoData) (vp : String)
    (tp : Option String) (st : SysState)
    (h : u ∉ st.users ∨ env.tusUid = Option.none ∨
      env.detailsFetchRaises = true ∨ env.commitRaises = true) :
    (upload_video_task env u vd vp tp st).result.dictGet "success" =
      PyVal.bool false ∧
    (upload_video_task env u vd vp tp st).result.dictGet "cancelled" =
      PyVal.none ∧
    get_task_status "SUCCESS" (upload_video_task env u vd vp tp st).result =
      { state := "SUCCESS", status := some "Upload completed successfully!",
        result := some (upload_video_task env u vd vp tp st).result,
        error := Option.none } := by
  obtain ⟨e, he⟩ := upload_video_task_fails env u vd vp tp st h
  rw [he]
  exact ⟨failurePayload_get_success e, failurePayload_get_cancelled e,
    gts_success_failurePayload e⟩

theorem claim_C9_witness :
    (1 ∉ initState.users) ∧
    ((upload_video_task happyEnv 1 vdX "v.mp4" Option.none
        initState).result.dictGet "success" = PyVal.bool false ∧
     (upload_video_task happyEnv 1 vdX "v.mp4" Option.none
        initState).result.dictGet "cancelled" = PyVal.none ∧
     get_task_status "SUCCESS" (upload_video_task happyEnv 1 vdX "v.mp4"
        Option.none initState).result =
       { state := "SUCCESS",
         status := some "Upload completed successfully!",
         result := some (upload_video_task happyEnv 1 vdX "v.mp4"
           Option.none initState).result,
         error := Option.none }) :=
  ⟨by decide, claim_C9 happyEnv 1 vdX "v.mp4" Option.none initState
    (Or.inl (by decide))⟩

/-!  ## Claims C1 and C2  -/

/-- C1 counterexample: the session for the job is marked `cancelled = true`
before the worker starts (hence before any pre-chunk check could run), yet
with every external call succeeding the job terminates with a
`success = True` payload — projected state SUCCESS, not CANCELLED — and a
catalog record IS created.  The worker never reads the `cancelled` flag. -/
theorem claim_C1_counterexample :
    sessCancelled.cancelled = true ∧
    (upload_video_task happyEnv 1 vdX "v.mp4" Option.none
      stCancelled).state.videos.length = 1 ∧
    (upload_video_task happyEnv 1 vdX "v.mp4" Option.none
      stCancelled).result.dictGet "success" = PyVal.bool true ∧
    (get_task_status "SUCCESS" (upload_video_task happyEnv 1 vdX "v.mp4"
      Option.none stCancelled).result).state = "SUCCESS" ∧
    (get_task_status "SUCCESS" (upload_video_task happyEnv 1 vdX "v.mp4"
      Option.none stCancelled).result).state ≠ "CANCELLED" := by
  refine ⟨rfl, rfl, rfl, rfl, by decide⟩

/-- C1 (amended): the worker never reads the session flag `cancelled`, so
setting `cancelled = true` before the run of the worker does not by itself
terminate the job: whenever user lookup, the TUS upload, the details fetch,
the catalog commit and the cache invalidation all succeed — even with a
cancelled session on file — the job ends with a `success = True` payload,
exactly one new catalog record, and projected state SUCCESS (never
CANCELLED).  Cancellation can only take effect through the external
best-effort task revocation. -/
theorem claim_C1 (env : WorkerEnv) (uid : String) (u : Nat) (vd : VideoData)
    (vp : String) (tp : Option String) (st : SysState)
    (sess : SessionRecord) (hs : sess ∈ st.sessions)
    (hcanc : sess.cancelled = true) (hu : u ∈ st.users)
    (htus : env.tusUid = some uid) (hdf : env.detailsFetchRaises = false)
    (hcm : env.commitRaises = false) (hca : env.cacheRaises = false) :
    (upload_video_task env u vd vp tp st).result.dictGet "success" =
      PyVal.bool true ∧
    (upload_video_task env u vd vp tp st).state.videos.length =
      st.videos.length + 1 ∧
    (get_task_status "SUCCESS"
      (upload_video_task env u vd vp tp st).result).state = "SUCCESS" := by
  refine ⟨?_, ?_, ?_⟩ <;>
    simp [upload_video_task, hu, htus, hdf, hcm, hca, failRun,
      finishRun_result, finishRun_videos]

theorem claim_C1_witness :
    (sessCancelled ∈ stCancelled.sessions ∧ sessCancelled.cancelled = true ∧
      1 ∈ stCancelled.users ∧ happyEnv.tusUid = some "uid1" ∧
      happyEnv.detailsFetchRaises = false ∧ happyEnv.commitRaises = false ∧
      happyEnv.cacheRaises = false) ∧
    ((upload_video_task happyEnv 1 vdX "v.mp4" Option.none
        stCancelled).result.dictGet "success" = PyVal.bool true ∧
     (upload_video_task happyEnv 1 vdX "v.mp4" Option.none
        stCancelled).state.videos.length = stCancelled.videos.length + 1 ∧
     (get_task_status "SUCCESS" (upload_video_task happyEnv 1 vdX "v.mp4"
        Option.none stCancelled).result).state = "SUCCESS") :=
  ⟨⟨by decide, rfl, by decide, rfl, rfl, rfl, rfl⟩,
   claim_C1 happyEnv "uid1" 1 vdX "v.mp4" Option.none stCancelled
     sessCancelled (by decide) rfl (by decide) rfl rfl rfl rfl⟩

theorem cancel_upload_none (taskId : String) (req : Requester)
    (rf tf : Bool) (st : SysState) (hcr : req.isCreator = true)
    (h : st.sessions.find? (fun s => s.id == taskId) = Option.none) :
    cancel_upload taskId req rf tf st = (CancelResponse.notFound, st) := by
  unfold cancel_upload
  rw [hcr]
  simp [h]

theorem cancel_upload_some (taskId : String) (req : Requester)
    (rf tf : Bool) (st : SysState) (sess : SessionRecord)
    (hcr : req.isCreator = true)
    (h : st.sessions.find? (fun s => s.id == taskId) = some sess) :
    cancel_upload taskId req rf tf st =
      (CancelResponse.ok, { st with sessions := st.sessions.map (fun s =>
        if s.id == taskId then { s with cancelled := true } else s) }) := by
  unfold cancel_upload
  rw [hcr]
  simp [h]

/-- C2 counterexample: the session is owned by user 1, the requester is the
creator-role user 2 — not the owner — and `cancel_upload` nonetheless
answers 200 OK and marks the session cancelled: the handler performs no
ownership check, contradicting the claimed Forbidden outcome for a
non-owner requester. -/
theorem claim_C2_counterexample :
    sessOwned.user_id = 1 ∧
    (cancel_upload "t1" ⟨2, true⟩ false false stOwned).1 =
      CancelResponse.ok ∧
    (cancel_upload "t1" ⟨2, true⟩ false false stOwned).1 ≠
      CancelResponse.forbiddenRole ∧
    (cancel_upload "t1" ⟨2, true⟩ false false stOwned).2.sessions =
      [{ sessOwned with cancelled := true }] := by
  refine ⟨rfl, rfl, by decide, rfl⟩

/-- C2 (amended): for a creator-role requester, `cancel_upload` returns 404
NotFound when no session with that id exists; otherwise — with NO ownership
check, so for any creator-role requester whatsoever — it sets
`cancelled = true` on the matching session and reports success, even if the
task-runner revoke or the remote TUS delete fails (`rf`/`tf` are arbitrary:
both failures are logged, never raised).  Only the `@creator_required` role
gate can produce a 403, and it does not compare the requester with the
session owner. -/
theorem claim_C2 (taskId : String) (req : Requester) (rf tf : Bool)
    (st : SysState) (hcr : req.isCreator = true) :
    (st.sessions.find? (fun s => s.id == taskId) = Option.none →
      (cancel_upload taskId req rf tf st).1 = CancelResponse.notFound) ∧
    (∀ sess, st.sessions.find? (fun s => s.id == taskId) = some sess →
      (cancel_upload taskId req rf tf st).1 = CancelResponse.ok ∧
      ∀ s, s ∈ (cancel_upload taskId req rf tf st).2.sessions →
        s.id = taskId → s.cancelled = true) := by
  constructor
  · intro h
    rw [cancel_upload_none taskId req rf tf st hcr h]
  · intro sess h
    rw [cancel_upload_some taskId req rf tf st sess hcr h]
    refine ⟨rfl, ?_⟩
    intro s hs hid
    simp only [List.mem_map] at hs
    obtain ⟨s0, hs0, rfl⟩ := hs
    by_cases h0 : (s0.id == taskId) = true
    · simp [h0]
    · rw [if_neg h0] at hid ⊢
      exact absurd hid (by simpa using h0)

theorem claim_C2_witness :
    ((⟨5, true⟩ : Requester).isCreator = true ∧
      stOwned.sessions.find? (fun s => s.id == "t1") = some sessOwned) ∧
    ((cancel_upload "t1" ⟨5, true⟩ true true stOwned).1 =
      CancelResponse.ok ∧
     ∀ s, s ∈ (cancel_upload "t1" ⟨5, true⟩ true true stOwned).2.sessions →
       s.id = "t1" → s.cancelled = true) :=
  ⟨⟨rfl, rfl⟩,
   (claim_C2 "t1" ⟨5, true⟩ true true stOwned rfl).2 sessOwned rfl⟩

/-!  ## Claims C6 and C7  -/

/-- C6 counterexample: a submission whose probed duration is 700 s (above
the 600 s ceiling) and whose size is 300 MiB (above the 250 MiB ceiling) is
ACCEPTED by `create_video`: the response is 202 with a task id, the source
is staged to a temp file, and the background task is enqueued — no
validator rejects it, before or after staging. -/
theorem claim_C6_counterexample :
    reqOversize.fileDuration = some 700 ∧ 600 < 700 ∧
    reqOversize.fileSize = 300 * 1024 * 1024 ∧
    250 * 1024 * 1024 < reqOversize.fileSize ∧
    (create_video 1000 reqOversize "tmpvid" "tmpthumb" "task1"
      initState).1 = CreateResponse.accepted "task1" ∧
    (create_video 1000 reqOversize "tmpvid" "tmpthumb" "task1"
      initState).2.1.files = ["tmpvid"] ∧
    (create_video 1000 reqOversize "tmpvid" "tmpthumb" "task1"
      initState).2.2 =
      [Event.stageTempFile "tmpvid", Event.enqueueTask "task1"] := by
  refine ⟨rfl, by decide, rfl, by decide, rfl, rfl, rfl⟩

/-- C6 (amended): `create_video` performs no duration, size or extension
validation at all: every submission with a video file, a non-empty title
and an absent or future parse-able `scheduled_at` is accepted (202), staged
to a temp file and enqueued — whatever its probed duration or size.  The
only rejections are missing title/video and invalid or past
`scheduled_at`. -/
theorem claim_C6 (now : Nat) (req : CreateRequest) (tv tt tid : String)
    (st : SysState) (hv : req.hasVideo = true)
    (ht : titleFalsy req.title = false)
    (hs : match req.scheduledAt with
      | Option.none => True
      | some Option.none => False
      | some (some t) => now < t) :
    (create_video now req tv tt tid st).1 = CreateResponse.accepted tid ∧
    tv ∈ (create_video now req tv tt tid st).2.1.files ∧
    (create_video now req tv tt tid st).2.2 =
      [Event.stageTempFile tv, Event.enqueueTask tid] := by
  unfold create_video
  rw [hv, ht]
  simp only [Bool.not_true, Bool.false_or, Bool.false_eq_true, if_false]
  split
  · next heq =>
      rw [heq] at hs
      simp at hs
  · next t heq =>
      rw [heq] at hs
      simp only at hs
      rw [if_neg (by omega : ¬ t ≤ now)]
      refine ⟨rfl, ?_, rfl⟩
      by_cases hth : req.hasThumbnail = true <;> simp [hth]
  · refine ⟨rfl, ?_, rfl⟩
    by_cases hth : req.hasThumbnail = true <;> simp [hth]

theorem claim_C6_witness :
    (reqOversize.hasVideo = true ∧ titleFalsy reqOversize.title = false) ∧
    ((create_video 1000 reqOversize "tmpvid" "tmpthumb" "task1"
        initState).1 = CreateResponse.accepted "task1" ∧
     "tmpvid" ∈ (create_video 1000 reqOversize "tmpvid" "tmpthumb" "task1"
        initState).2.1.files ∧
     (create_video 1000 reqOversize "tmpvid" "tmpthumb" "task1"
        initState).2.2 =
       [Event.stageTempFile "tmpvid", Event.enqueueTask "task1"]) :=
  ⟨⟨rfl, rfl⟩,
   claim_C6 1000 reqOversize "tmpvid" "tmpthumb" "task1" initState rfl rfl
     trivial⟩

/-- C7: whenever the raw Celery state is FAILURE and the stored payload
matches the cancellation sentinel — `info == \x7b"cancelled": True\x7d` or
`info` a dictionary with `info.get("error") == "cancelled"` — the status
endpoint re-labels the job CANCELLED with the user-cancellation message, so
a cancelled job never surfaces as an ordinary error to the polling
client. -/
theorem claim_C7 (info : PyVal) (h : cancelSentinel info = true) :
    (get_task_status "FAILURE" info).state = "CANCELLED" ∧
    (get_task_status "FAILURE" info).status =
      some "Upload cancelled by user" := by
  unfold cancelSentinel at h
  unfold get_task_status
  rw [if_neg (by decide : ¬ ("FAILURE" : String) = "PENDING"),
    if_neg (by decide : ¬ ("FAILURE" : String) = "STARTED"),
    if_neg (by decide : ¬ ("FAILURE" : String) = "SUCCESS"),
    if_pos (rfl : ("FAILURE" : String) = "FAILURE"), if_pos h]
  exact ⟨rfl, rfl⟩

theorem claim_C7_witness :
    cancelSentinel (PyVal.dict [("cancelled", PyVal.bool true)]) = true ∧
    (get_task_status "FAILURE"
      (PyVal.dict [("cancelled", PyVal.bool true)])).state = "CANCELLED" ∧
    (get_task_status "FAILURE"
      (PyVal.dict [("cancelled", PyVal.bool true)])).status =
        some "Upload cancelled by user" :=
  ⟨rfl, (claim_C7 (PyVal.dict [("cancelled", PyVal.bool true)]) rfl).1,
    (claim_C7 (PyVal.dict [("cancelled", PyVal.bool true)]) rfl).2⟩

/-!  ## Claim C10  -/

theorem create_video_sessions (now : Nat) (req : CreateRequest)
    (tv tt tid : String) (st : SysState) :
    (create_video now req tv tt tid st).2.1.sessions = st.sessions := by
  simp only [create_video]
  repeat' split
  all_goals rfl

theorem Op_step_sessions (op : Op) (st : SysState) (h : st.sessions = []) :
    (op.step st).sessions = [] := by
  cases op with
  | addUser uid => simpa using h
  | createVideo now req tv tt tid =>
      rw [Op.step, create_video_sessions]
      exact h
  | runTask env uid vd vp tp =>
      rw [Op.step, upload_video_task_sessions]
      exact h
  | cancelUpload tid req rf tf =>
      simp only [Op.step]
      unfold cancel_upload
      split
      · simpa using h
      · split
        · simpa using h
        · simp [h]
  | pollStatus s i => simpa using h

theorem runOps_sessions (ops : List Op) : (runOps ops).sessions = [] := by
  suffices hgen : ∀ st : SysState, st.sessions = [] →
      (ops.foldl (fun st op => op.step st) st).sessions = [] by
    exact hgen initState rfl
  induction ops with
  | nil => intro st h; exact h
  | cons o rest ih =>
      intro st h
      exact ih (o.step st) (Op_step_sessions o st h)

/-- C10: no operation of the pipeline ever inserts an `UploadSession` row
or assigns its `tus_url` (the repository references `UploadSession` only in
the model definition and in `cancel_upload`, which merely updates a looked-
up row): starting from the empty store, after ANY sequence of sign-ups,
submissions, worker runs, cancellations and status polls the
`upload_sessions` table is still empty — so `cancel_upload` answers
404 `No active upload session` for every task id, including the id of an
upload currently in progress. -/
theorem claim_C10 (ops : List Op) (taskId : String) (req : Requester)
    (rf tf : Bool) :
    (runOps ops).sessions = [] ∧
    (∀ s, s ∈ (runOps ops).sessions → s.tus_url = Option.none) ∧
    (req.isCreator = true →
      (cancel_upload taskId req rf tf (runOps ops)).1 =
        CancelResponse.notFound) := by
  have h := runOps_sessions ops
  refine ⟨h, ?_, ?_⟩
  · intro s hs
    rw [h] at hs
    exact absurd hs (List.not_mem_nil s)
  · intro hcr
    have hfind : (runOps ops).sessions.find?
        (fun s => s.id == taskId) = Option.none := by
      rw [h]
      rfl
    rw [cancel_upload_none taskId req rf tf (runOps ops) hcr hfind]

theorem claim_C10_witness :
    (runOps opsX).sessions = [] ∧
    ((⟨2, true⟩ : Requester).isCreator = true ∧
      (cancel_upload "t1" ⟨2, true⟩ false false (runOps opsX)).1 =
        CancelResponse.notFound) :=
  ⟨(claim_C10 opsX "t1" ⟨2, true⟩ false false).1,
   rfl, (claim_C10 opsX "t1" ⟨2, true⟩ false false).2.2 rfl⟩
